import Mathlib

/-!
Verification development for the LostEditor native command surface
(src/src-tauri/src/main.rs).  The Rust commands are shallowly embedded:
the file system is an explicit state, serde_json values are an inductive
type, the callback-based native picker is a parameter describing the
value (if any) the one-shot handoff channel delivers, and the per-user
application data directory reported by the platform is an
`Option String` (with `Except.error` modelling the process-aborting
`expect` panic).
-/

namespace LostEditor

/-- Model of `serde_json::Value`. -/
inductive Json where
  | null
  | bool (b : Bool)
  | num (n : Int)
  | str (s : String)
  | arr (items : List Json)
  | obj (fields : List (String × Json))

/-- First-match association lookup, used for JSON object fields and for
the modelled file system contents. -/
def assocLookup {α : Type} (key : String) : List (String × α) → Option α
  | [] => none
  | (k, v) :: rest => if key = k then some v else assocLookup key rest

/-- Boolean membership test on a list of strings. -/
def strElem (key : String) : List String → Bool
  | [] => false
  | k :: rest => if key = k then true else strElem key rest

/-- Model of `serde_json::Value::get` with a string key: field lookup on
objects, `None` on every other value. -/
def Json.get (j : Json) (key : String) : Option Json :=
  match j with
  | .obj fields => assocLookup key fields
  | _ => none

/-- Model of `serde_json::Value::as_str`. -/
def Json.asStr : Json → Option String
  | .str s => some s
  | _ => none

/-- Model of `serde_json::Value::as_array`. -/
def Json.asArr : Json → Option (List Json)
  | .arr items => some items
  | _ => none

/-- The `FileResult` struct (main.rs lines 9-14): the uniform
success/data/error envelope. -/
structure FileResult where
  success : Bool
  data : Option String
  error : Option String
deriving DecidableEq, Repr

/-- The `Settings` struct (main.rs lines 16-22). -/
structure Settings where
  recent_files : Option (List String)
  last_opened_project : Option String
deriving DecidableEq, Repr

/-- Model of the file system state seen by the `std::fs` primitives:
file contents keyed by path (first match wins, so a write shadows older
entries), the set of existing directories, and the set of paths where
the OS refuses directory creation (modelling `create_dir_all` failure,
for example permission denial). -/
structure FS where
  files : List (String × String)
  dirs : List String
  dirDenied : List String
deriving DecidableEq, Repr

/-- The characters of a path that precede its last slash, or `none`
when the path contains no slash. -/
def beforeLastSlash : List Char → Option (List Char)
  | [] => none
  | c :: rest =>
    match beforeLastSlash rest with
    | some r => some (c :: r)
    | none => if c = '/' then some [] else none

/-- Model of `std::path::Path::parent` on the string form of a path:
everything before the last slash, with the root and the empty path
having no parent, a root-level path having parent `/`, and a single
relative component having parent `""` (the current directory). -/
def parentDir (p : String) : Option String :=
  if p = "" then none
  else if p = "/" then none
  else
    match beforeLastSlash p.data with
    | some r => if r = [] ∧ p.data.head? = some '/' then some "/" else some ⟨r⟩
    | none => some ""

/-- A directory exists when it is the root, the current directory, or
has been recorded in the state. -/
def dirExists (fs : FS) (d : String) : Bool :=
  if d = "" then true else if d = "/" then true else strElem d fs.dirs

/-- The error string produced by the modelled primitives for a missing
file or a missing parent directory. -/
def enoentMsg : String := "No such file or directory (os error 2)"

/-- The error string produced by the modelled `create_dir_all` when the
OS refuses to create a directory. -/
def eaccesMsg : String := "Permission denied (os error 13)"

/-- Model of `std::fs::read_to_string`: the stored contents, or an
error for a missing file. -/
def fsReadToString (fs : FS) (p : String) : Except String String :=
  match assocLookup p fs.files with
  | some contents => .ok contents
  | none => .error enoentMsg

/-- Model of `std::fs::write`: unconditional overwrite, failing when
the parent directory of the target does not exist. -/
def fsWrite (fs : FS) (p contents : String) : Except String FS :=
  match parentDir p with
  | some parent =>
    if dirExists fs parent then .ok { fs with files := (p, contents) :: fs.files }
    else .error enoentMsg
  | none => .error enoentMsg

/-- The directory together with its chain of ancestors (fuelled by the
length of the path, which bounds the chain). -/
def dirChain : Nat → String → List String
  | 0, _ => []
  | fuel + 1, p =>
    p :: (match parentDir p with
      | some q => dirChain fuel q
      | none => [])

/-- Model of `std::fs::create_dir_all`: records the full directory
chain (idempotent when already present), failing only on the modelled
OS refusal set. -/
def fsCreateDirAll (fs : FS) (p : String) : Except String FS :=
  if strElem p fs.dirDenied then .error eaccesMsg
  else .ok { fs with dirs := dirChain (p.length + 1) p ++ fs.dirs }

/-- The `read_file` command (main.rs lines 25-39). -/
def read_file (fs : FS) (file_path : String) : FileResult :=
  match fsReadToString fs file_path with
  | .ok data => { success := true, data := some data, error := none }
  | .error e => { success := false, data := none, error := some e }

/-- The `write_file` command (main.rs lines 41-55); returns the updated
file system together with the envelope. -/
def write_file (fs : FS) (file_path data : String) : FS × FileResult :=
  match fsWrite fs file_path data with
  | .ok fs2 => (fs2, { success := true, data := none, error := none })
  | .error e => (fs, { success := false, data := none, error := some e })

/-- The `create_dir` command (main.rs lines 247-261). -/
def create_dir (fs : FS) (path : String) : FS × FileResult :=
  match fsCreateDirAll fs path with
  | .ok fs2 => (fs2, { success := true, data := none, error := none })
  | .error e => (fs, { success := false, data := none, error := some e })

/-- Model of `PathBuf::join` on string forms: insert a separator unless
the directory already ends in one. -/
def joinPath (dir file : String) : String :=
  if dir.data.getLast? = some '/' then dir ++ file else dir ++ "/" ++ file

/-- `get_settings_path` (main.rs lines 98-103): the platform report of
the per-user application data directory is the `Option String`
argument, and the `Except.error` case models the process-aborting
`expect` panic (not a recoverable `FileResult` error, which lives in a
different type). -/
def get_settings_path (appDataDir : Option String) : Except String String :=
  match appDataDir with
  | some dir => .ok (joinPath dir "settings.json")
  | none => .error "Failed to get app data dir"

/-- The `load_settings` command (main.rs lines 58-73); the outer
`Except` propagates only the `get_settings_path` abort. -/
def load_settings (appDataDir : Option String) (fs : FS) : Except String FileResult :=
  match get_settings_path appDataDir with
  | .ok settings_path =>
    .ok (match fsReadToString fs settings_path with
      | .ok data => { success := true, data := some data, error := none }
      | .error e => { success := false, data := none, error := some e })
  | .error e => .error e

/-- The `save_settings` command (main.rs lines 75-96): best-effort
creation of the parent directory with the result discarded (the `let _`
in the source), then an unconditional write whose outcome alone decides
the envelope. -/
def save_settings (appDataDir : Option String) (fs : FS) (settings_json : String) :
    Except String (FS × FileResult) :=
  match get_settings_path appDataDir with
  | .ok settings_path =>
    let fs1 := match parentDir settings_path with
      | some parent =>
        match fsCreateDirAll fs parent with
        | .ok fs2 => fs2
        | .error _ => fs
      | none => fs
    .ok (match fsWrite fs1 settings_path settings_json with
      | .ok fs2 => (fs2, { success := true, data := none, error := none })
      | .error e => (fs1, { success := false, data := none, error := some e }))
  | .error e => .error e

/-- The state accumulated on `tauri_plugin_dialog`'s `FileDialogBuilder`
by the configuration calls the two dialog commands make. -/
structure FileDialogBuilder where
  title : Option String := none
  directory : Option String := none
  fileName : Option String := none
  filters : List (String × List String) := []
deriving DecidableEq, Repr

/-- Builder method `set_title`. -/
def FileDialogBuilder.set_title (b : FileDialogBuilder) (t : String) : FileDialogBuilder :=
  { b with title := some t }

/-- Builder method `set_directory`. -/
def FileDialogBuilder.set_directory (b : FileDialogBuilder) (d : String) : FileDialogBuilder :=
  { b with directory := some d }

/-- Builder method `set_file_name`. -/
def FileDialogBuilder.set_file_name (b : FileDialogBuilder) (f : String) : FileDialogBuilder :=
  { b with fileName := some f }

/-- Builder method `add_filter`: appends one named filter with its
extension list. -/
def FileDialogBuilder.add_filter (b : FileDialogBuilder) (name : String)
    (exts : List String) : FileDialogBuilder :=
  { b with filters := b.filters ++ [(name, exts)] }

/-- The body of the filter loop shared by both dialog commands
(main.rs lines 130-140 and 202-212): an entry is registered when its
`name` is a string, its `extensions` is an array, and the string
elements of that array are non-empty. -/
def filterStep (builder : FileDialogBuilder) (filter : Json) : FileDialogBuilder :=
  match (filter.get "name").bind Json.asStr, (filter.get "extensions").bind Json.asArr with
  | some name, some extensions =>
    let exts := extensions.filterMap Json.asStr
    if !exts.isEmpty then builder.add_filter name exts else builder
  | _, _ => builder

/-- The filter loop (main.rs lines 129-141 and 201-213). -/
def addFilters (builder : FileDialogBuilder) (options : Json) : FileDialogBuilder :=
  match (options.get "filters").bind Json.asArr with
  | some filters => filters.foldl filterStep builder
  | none => builder

/-- The builder configured by `show_open_dialog` (main.rs lines
110-141): title, then `defaultPath` as the starting directory, then the
filters. -/
def openDialogBuilder (options : Json) : FileDialogBuilder :=
  let builder : FileDialogBuilder := {}
  let builder := match (options.get "title").bind Json.asStr with
    | some title => builder.set_title title
    | none => builder
  let builder := match (options.get "defaultPath").bind Json.asStr with
    | some default_path => builder.set_directory default_path
    | none => builder
  addFilters builder options

/-- The directory-mode test of `show_open_dialog` (main.rs lines
121-126). -/
def directory_mode (options : Json) : Bool :=
  match (options.get "properties").bind Json.asArr with
  | some arr => arr.any (fun v => v.asStr == some "openDirectory")
  | none => false

/-- The two native picker entry points `show_open_dialog` can invoke. -/
inductive PickBranch where
  | folder
  | file
deriving DecidableEq, Repr

/-- The branch chosen at main.rs line 146: `pick_folder` in directory
mode, `pick_file` otherwise. -/
def openDialogBranch (options : Json) : PickBranch :=
  if directory_mode options then .folder else .file

/-- The JSON produced by the open-dialog callback for a delivered path
(main.rs lines 149-152 and 163-166). -/
def openSelectResult (p : String) : Json :=
  .obj [("canceled", .bool false), ("filePaths", .arr [.str p])]

/-- The JSON produced by the open-dialog callback for a dismissal, and
equally by the `recv` fail-safe when the channel breaks (main.rs lines
153-156, 167-170 and 178-181). -/
def openCancelResult : Json :=
  .obj [("canceled", .bool true), ("filePaths", .arr [])]

/-- The JSON produced by the save-dialog callback for a delivered path
(main.rs lines 220-223). -/
def saveSelectResult (p : String) : Json :=
  .obj [("canceled", .bool false), ("filePath", .str p)]

/-- The JSON produced by the save-dialog callback for a dismissal, and
by the `recv` fail-safe (main.rs lines 224-227 and 234-237). -/
def saveCancelResult : Json :=
  .obj [("canceled", .bool true), ("filePath", .null)]

/-- What the one-shot handoff channel of a dialog call delivers:
`some (some p)` when the native callback fired with a path,
`some none` when it fired with no path (user dismissal), and `none`
when the channel broke without ever receiving a value. -/
abbrev DialogDelivery : Type := Option (Option String)

/-- The value `show_open_dialog` returns (main.rs lines 143-182): the
callback result when one is delivered, the fail-safe cancel JSON when
`rx.recv()` fails. -/
def show_open_dialog (options : Json) (delivered : DialogDelivery) : Json :=
  let _builder := openDialogBuilder options
  let _branch := openDialogBranch options
  match delivered with
  | some (some p) => openSelectResult p
  | some none => openCancelResult
  | none => openCancelResult

/-- The builder configured by `show_save_dialog` (main.rs lines
189-213): title, then `defaultPath` as the suggested file name, then
the filters. -/
def saveDialogBuilder (options : Json) : FileDialogBuilder :=
  let builder : FileDialogBuilder := {}
  let builder := match (options.get "title").bind Json.asStr with
    | some title => builder.set_title title
    | none => builder
  let builder := match (options.get "defaultPath").bind Json.asStr with
    | some default_path => builder.set_file_name default_path
    | none => builder
  addFilters builder options

/-- The value `show_save_dialog` returns (main.rs lines 215-238). -/
def show_save_dialog (options : Json) (delivered : DialogDelivery) : Json :=
  let _builder := saveDialogBuilder options
  match delivered with
  | some (some p) => saveSelectResult p
  | some none => saveCancelResult
  | none => saveCancelResult

/-- Path existence as checked by the auto-load task
(`std::path::Path::exists`): a stored file or a recorded directory. -/
def fsPathExists (fs : FS) (p : String) : Bool :=
  (assocLookup p fs.files).isSome || strElem p fs.dirs || p = "/"

/-- The startup auto-load task spawned in `main` (main.rs lines
386-410), as the list of emitted notifications: each entry is the delay
in milliseconds that preceded the emission, the event name, and the
payload.  `parse` stands for `serde_json::from_str::<Settings>` (the
external serde deserializer); `windowExists` is whether
`get_webview_window("main")` finds the main window at emission time. -/
def autoLoadTask (appDataDir : Option String) (fs : FS)
    (parse : String → Option Settings) (windowExists : Bool) :
    Except String (List (Nat × String × String)) :=
  (load_settings appDataDir fs).map (fun settings_result =>
    if settings_result.success then
      match settings_result.data with
      | some data =>
        match parse data with
        | some settings =>
          match settings.last_opened_project with
          | some last_project =>
            if fsPathExists fs last_project then
              if windowExists then [(1500, "auto-load-project", last_project)] else []
            else []
          | none => []
        | none => []
      | none => []
    else [])

/-- Claim-side reading of claim C3: the properties array of the options
document contains the string `"openDirectory"`. -/
def propertiesHasOpenDirectory (options : Json) : Prop :=
  match options.get "properties" with
  | some (Json.arr items) => Json.str "openDirectory" ∈ items
  | _ => False

/-- The filters actually registered on the builder by either dialog
command, starting from the default builder. -/
def registeredFilters (options : Json) : List (String × List String) :=
  (addFilters {} options).filters

/-- Claim-side reading of claim C4 as stated: an entry is registered
exactly when its name is a non-empty string and its extensions array is
a non-empty list (the registered extensions being its string
elements). -/
def claimedFilters (options : Json) : List (String × List String) :=
  match (options.get "filters").bind Json.asArr with
  | some filters =>
    filters.filterMap (fun filter =>
      match (filter.get "name").bind Json.asStr, (filter.get "extensions").bind Json.asArr with
      | some name, some extensions =>
        if name ≠ "" ∧ extensions.isEmpty = false then some (name, extensions.filterMap Json.asStr)
        else none
      | _, _ => none)
  | none => []

/-- Claim-side reading of the amended claim C4: an entry is registered
exactly when its name is present as a string (an empty string counts)
and its extensions array contains at least one string element; the
registered extension list keeps exactly the string elements. -/
def amendedFilters (options : Json) : List (String × List String) :=
  match (options.get "filters").bind Json.asArr with
  | some filters =>
    filters.filterMap (fun filter =>
      match (filter.get "name").bind Json.asStr, (filter.get "extensions").bind Json.asArr with
      | some name, some extensions =>
        let exts := extensions.filterMap Json.asStr
        if exts.isEmpty then none else some (name, exts)
      | _, _ => none)
  | none => []

/-- Claim-side scrubbing of a filter entry, per claim C10: keep the
name when it is a string, keep the extensions array with only its
string elements. -/
def scrubFilter (filter : Json) : Json :=
  Json.obj
    ((match (filter.get "name").bind Json.asStr with
      | some name => [("name", Json.str name)]
      | none => [])
    ++ (match (filter.get "extensions").bind Json.asArr with
      | some extensions =>
        [("extensions", Json.arr (extensions.filter (fun e => (Json.asStr e).isSome)))]
      | none => []))

/-- Claim-side scrubbing of an options document, per claim C10: keep
each recognized key only when well typed, keep only string elements of
the properties array, and scrub each filter entry.  Claim C10 states
that both dialog commands treat every options value exactly like its
scrubbed form. -/
def scrubOptions (options : Json) : Json :=
  Json.obj
    ((match (options.get "title").bind Json.asStr with
      | some title => [("title", Json.str title)]
      | none => [])
    ++ (match (options.get "defaultPath").bind Json.asStr with
      | some dp => [("defaultPath", Json.str dp)]
      | none => [])
    ++ (match (options.get "properties").bind Json.asArr with
      | some props => [("properties", Json.arr (props.filter (fun v => (Json.asStr v).isSome)))]
      | none => [])
    ++ (match (options.get "filters").bind Json.asArr with
      | some filters => [("filters", Json.arr (filters.map scrubFilter))]
      | none => []))

/-- Options document with a single filter whose name is the empty
string: the concrete input on which claim C4 fails. -/
def emptyNameFilterOptions : Json :=
  Json.obj [("filters", Json.arr
    [Json.obj [("name", Json.str ""), ("extensions", Json.arr [Json.str "txt"])]])]

/-- An empty file system: no files, no directories, no refusals. -/
def fsEmpty : FS := { files := [], dirs := [], dirDenied := [] }

/-- A file system with one directory `/d`, used by witnesses. -/
def fsWithDir : FS := { files := [], dirs := ["/d"], dirDenied := [] }

/-- A file system holding a settings file under `/data` and the project
file `/tmp/exists.proj`, used by the auto-load witness. -/
def fsAuto : FS :=
  { files := [("/data/settings.json", "S"), ("/tmp/exists.proj", "")]
    dirs := ["/data"]
    dirDenied := [] }

/-- A deserializer stand-in for the auto-load witness: every settings
text parses to a document whose last opened project is
`/tmp/exists.proj`. -/
def parseAuto : String → Option Settings :=
  fun _ => some { recent_files := none, last_opened_project := some "/tmp/exists.proj" }

/-- Options used by dialog witnesses: a title, directory mode, and one
filter. -/
def witnessOptions : Json :=
  Json.obj
    [("title", Json.str "Open"),
     ("properties", Json.arr [Json.str "openDirectory"]),
     ("filters", Json.arr
       [Json.obj [("name", Json.str "Maps"), ("extensions", Json.arr [Json.str "map"])]])]

theorem strElem_self (k : String) (l : List String) : strElem k (k :: l) = true := by
  simp [strElem]

theorem strElem_head_append (k : String) (xs l : List String) :
    strElem k ((k :: xs) ++ l) = true := by
  rw [List.cons_append]
  exact strElem_self k (xs ++ l)

theorem assocLookup_self {α : Type} (k : String) (v : α) (l : List (String × α)) :
    assocLookup k ((k, v) :: l) = some v := by
  simp [assocLookup]

/-- C6: every Result Envelope produced by `read_file`, `write_file`,
`load_settings`, `save_settings` and `create_dir` has `success = true`
exactly when `error` is absent, and carries `data` only on success of
the payload-producing operations (`read_file`, `load_settings`),
never in any other case. -/
theorem claim6_envelope_invariant (fs : FS) (p c dir json : String) :
    ((read_file fs p).success = true ↔ (read_file fs p).error = none)
    ∧ ((read_file fs p).data.isSome = true ↔ (read_file fs p).success = true)
    ∧ ((write_file fs p c).2.success = true ↔ (write_file fs p c).2.error = none)
    ∧ (write_file fs p c).2.data = none
    ∧ ((create_dir fs p).2.success = true ↔ (create_dir fs p).2.error = none)
    ∧ (create_dir fs p).2.data = none
    ∧ (∀ r, load_settings (some dir) fs = .ok r →
        ((r.success = true ↔ r.error = none) ∧ (r.data.isSome = true ↔ r.success = true)))
    ∧ (∀ fs2 r, save_settings (some dir) fs json = .ok (fs2, r) →
        ((r.success = true ↔ r.error = none) ∧ r.data = none)) := by
  refine ⟨?_, ?_, ?_, ?_, ?_, ?_, ?_, ?_⟩
  · unfold read_file
    split <;> simp
  · unfold read_file
    split <;> simp
  · unfold write_file
    split <;> simp
  · unfold write_file
    split <;> simp
  · unfold create_dir
    split <;> simp
  · unfold create_dir
    split <;> simp
  · intro r h
    unfold load_settings get_settings_path at h
    dsimp only at h
    injection h with h2
    rw [← h2]
    split <;> simp
  · intro fs2 r h
    unfold save_settings get_settings_path at h
    dsimp only at h
    injection h with h2
    split at h2 <;> rw [Prod.mk.injEq] at h2 <;> rw [← h2.2] <;> simp

/-- C7 counterexample: on the concrete input of an empty file system
and the path `/missing/f.txt` (whose parent directory does not exist),
`write_file` followed by `read_file` does not yield `success = true`
with the written data, contradicting the claim as stated. -/
theorem claim7_counterexample :
    (read_file (write_file fsEmpty "/missing/f.txt" "x").1 "/missing/f.txt").success = false
    ∧ (read_file (write_file fsEmpty "/missing/f.txt" "x").1 "/missing/f.txt").data ≠ some "x" := by
  constructor
  · decide
  · decide

/-- C7 (amended): for every path `p` and content `c`, when
`write_file fs p c` reports success, the subsequent `read_file` of `p`
yields `success = true` with `data = c`. -/
theorem claim7_write_read_roundtrip (fs : FS) (p c : String)
    (h : (write_file fs p c).2.success = true) :
    read_file (write_file fs p c).1 p
      = { success := true, data := some c, error := none } := by
  unfold write_file at h ⊢
  cases hw : fsWrite fs p c with
  | ok fs2 =>
    dsimp only
    unfold fsWrite at hw
    split at hw
    · split at hw
      · injection hw with h2
        rw [← h2]
        unfold read_file fsReadToString
        rw [assocLookup_self]
      · exact Except.noConfusion hw
    · exact Except.noConfusion hw
  | error e =>
    rw [hw] at h
    simp at h

theorem claim7_roundtrip_witness :
    read_file (write_file fsWithDir "/d/f" "hello" ).1 "/d/f"
      = { success := true, data := some "hello", error := none } :=
  claim7_write_read_roundtrip fsWithDir "/d/f" "hello" (by decide)

/-- C8: `read_file` returns success with the file contents as text
when the file is readable, and on the underlying failure of a
nonexistent path returns `success = false` with no data and a
non-empty error string (the envelope's error channel is an unstructured
string, so no structured error kind is exposed). -/
theorem claim8_read_file_contract (fs : FS) (p : String) :
    (assocLookup p fs.files = none →
      read_file fs p = { success := false, data := none, error := some enoentMsg }
      ∧ enoentMsg ≠ "")
    ∧ (∀ c, assocLookup p fs.files = some c →
      read_file fs p = { success := true, data := some c, error := none }) := by
  constructor
  · intro h
    refine ⟨?_, by decide⟩
    unfold read_file fsReadToString
    rw [h]
  · intro c h
    unfold read_file fsReadToString
    rw [h]

theorem claim8_read_witness :
    read_file fsEmpty "/nope"
      = { success := false, data := none, error := some enoentMsg } :=
  ((claim8_read_file_contract fsEmpty "/nope").1 (by decide)).1

/-- C9: `get_settings_path` is the platform application data directory
joined with the fixed filename `settings.json`, and it aborts the
process (the `Except.error` case models the `expect` panic, a different
type from the recoverable `FileResult` envelope) exactly when the
platform cannot report a data directory. -/
theorem claim9_settings_path (appDataDir : Option String) :
    ((∃ e, get_settings_path appDataDir = .error e) ↔ appDataDir = none)
    ∧ (∀ dir, appDataDir = some dir →
        get_settings_path appDataDir = .ok (joinPath dir "settings.json")) := by
  constructor
  · constructor
    · rintro ⟨e, he⟩
      cases appDataDir with
      | none => rfl
      | some dir => exact Except.noConfusion he
    · rintro rfl
      exact ⟨"Failed to get app data dir", rfl⟩
  · rintro dir rfl
    rfl

theorem claim9_settings_path_witness :
    get_settings_path (some "/data") = .ok (joinPath "/data" "settings.json") :=
  (claim9_settings_path (some "/data")).2 "/data" rfl

/-- C1: every result of `show_open_dialog` and `show_save_dialog` is
exactly one of a selection outcome (`canceled = false` with a populated
path field) or a cancel outcome (`canceled = true` with empty
`filePaths` for open, `filePath = null` for save); a populated path
never appears alongside `canceled = true`, and a handoff channel broken
without ever delivering a value produces the cancel outcome rather than
an error. -/
theorem claim1_dialog_outcomes (options : Json) (p : String) :
    show_open_dialog options (some (some p)) = openSelectResult p
    ∧ show_open_dialog options (some none) = openCancelResult
    ∧ show_open_dialog options none = openCancelResult
    ∧ (∀ delivered : DialogDelivery, show_open_dialog options delivered = openCancelResult
        ∨ ∃ q, show_open_dialog options delivered = openSelectResult q)
    ∧ show_save_dialog options (some (some p)) = saveSelectResult p
    ∧ show_save_dialog options (some none) = saveCancelResult
    ∧ show_save_dialog options none = saveCancelResult
    ∧ (∀ delivered : DialogDelivery, show_save_dialog options delivered = saveCancelResult
        ∨ ∃ q, show_save_dialog options delivered = saveSelectResult q)
    ∧ (openSelectResult p).get "canceled" = some (.bool false)
    ∧ (openSelectResult p).get "filePaths" = some (.arr [.str p])
    ∧ openCancelResult.get "canceled" = some (.bool true)
    ∧ openCancelResult.get "filePaths" = some (.arr [])
    ∧ (saveSelectResult p).get "canceled" = some (.bool false)
    ∧ (saveSelectResult p).get "filePath" = some (.str p)
    ∧ saveCancelResult.get "canceled" = some (.bool true)
    ∧ saveCancelResult.get "filePath" = some .null
    ∧ (∀ s, saveCancelResult.get "filePath" ≠ some (.str s)) := by
  refine ⟨rfl, rfl, rfl, ?_, rfl, rfl, rfl, ?_, rfl, rfl, rfl, rfl, rfl, rfl, rfl, rfl, ?_⟩
  · intro delivered
    rcases delivered with _ | (_ | q)
    · exact Or.inl rfl
    · exact Or.inl rfl
    · exact Or.inr ⟨q, rfl⟩
  · intro delivered
    rcases delivered with _ | (_ | q)
    · exact Or.inl rfl
    · exact Or.inl rfl
    · exact Or.inr ⟨q, rfl⟩
  · intro s h
    injection h with h2
    exact Json.noConfusion h2

theorem claim1_dialog_witness :
    show_open_dialog (Json.obj []) (some (some "/picked")) = openSelectResult "/picked" :=
  (claim1_dialog_outcomes (Json.obj []) "/picked").1

theorem asStr_eq_openDirectory (j : Json) :
    j.asStr = some "openDirectory" ↔ j = Json.str "openDirectory" := by
  cases j <;> simp [Json.asStr]

/-- C3: `show_open_dialog` enters directory mode exactly when the
properties array of the options contains the string `"openDirectory"`;
in directory mode the folder-picking branch is invoked and never the
file-picking branch, and the chosen branch depends only on the
`properties` field, so it is unchanged by whatever `filters` the
options carry. -/
theorem claim3_directory_mode (options : Json) :
    (directory_mode options = true ↔ propertiesHasOpenDirectory options)
    ∧ (openDialogBranch options = PickBranch.folder ↔ directory_mode options = true)
    ∧ (openDialogBranch options = PickBranch.file ↔ directory_mode options = false)
    ∧ (∀ options2 : Json, options.get "properties" = options2.get "properties" →
        openDialogBranch options = openDialogBranch options2) := by
  refine ⟨?_, ?_, ?_, ?_⟩
  · unfold directory_mode propertiesHasOpenDirectory
    cases hp : options.get "properties" with
    | none => simp
    | some v =>
      cases v <;> simp [Json.asArr, List.any_eq_true, asStr_eq_openDirectory]
  · unfold openDialogBranch
    by_cases hd : directory_mode options <;> simp [hd]
  · unfold openDialogBranch
    by_cases hd : directory_mode options <;> simp [hd]
  · intro options2 h
    unfold openDialogBranch directory_mode
    rw [h]

theorem claim3_directory_mode_witness :
    openDialogBranch witnessOptions
      = openDialogBranch (Json.obj [("properties", Json.arr [Json.str "openDirectory"])]) :=
  (claim3_directory_mode witnessOptions).2.2.2
    (Json.obj [("properties", Json.arr [Json.str "openDirectory"])]) rfl

/-- C4 counterexample: the options document whose only filter entry has
the empty string as name and a non-empty extension list is registered
by the code, while the claim as stated (a filter is registered exactly
when it has a non-empty name and a non-empty extension list) requires
it to be skipped. -/
theorem claim4_counterexample :
    registeredFilters emptyNameFilterOptions ≠ claimedFilters emptyNameFilterOptions := by
  decide

theorem foldl_filterStep_filters (filters : List Json) (b : FileDialogBuilder) :
    (filters.foldl filterStep b).filters
      = b.filters ++ filters.filterMap (fun filter =>
          match (filter.get "name").bind Json.asStr,
              (filter.get "extensions").bind Json.asArr with
          | some name, some extensions =>
            let exts := extensions.filterMap Json.asStr
            if exts.isEmpty then none else some (name, exts)
          | _, _ => none) := by
  induction filters generalizing b with
  | nil => simp
  | cons f rest ih =>
    rw [List.foldl_cons, List.filterMap_cons, ih]
    unfold filterStep
    cases hn : (f.get "name").bind Json.asStr with
    | none => rfl
    | some name =>
      cases he : (f.get "extensions").bind Json.asArr with
      | none => rfl
      | some extensions =>
        dsimp only
        by_cases hie : (extensions.filterMap Json.asStr).isEmpty = true
        · simp [hie]
        · simp only [Bool.not_eq_true] at hie
          simp [hie, FileDialogBuilder.add_filter]

/-- C4 (amended): in both dialog commands a filter entry is registered
exactly when its name is present as a string (an empty string counts)
and its extensions array contains at least one string element; the
registered extension list keeps exactly the string elements, and every
other entry is silently skipped without failing the operation. -/
theorem claim4_filters_amended (options : Json) :
    registeredFilters options = amendedFilters options := by
  unfold registeredFilters addFilters amendedFilters
  cases hf : (options.get "filters").bind Json.asArr with
  | none => rfl
  | some filters =>
    dsimp only
    rw [foldl_filterStep_filters]
    rfl

theorem claim4_filters_witness :
    registeredFilters witnessOptions = amendedFilters witnessOptions :=
  claim4_filters_amended witnessOptions

theorem scrubOptions_title (options : Json) :
    ((scrubOptions options).get "title").bind Json.asStr
      = (options.get "title").bind Json.asStr := by
  unfold scrubOptions
  cases h1 : (options.get "title").bind Json.asStr <;>
    cases h2 : (options.get "defaultPath").bind Json.asStr <;>
      cases h3 : (options.get "properties").bind Json.asArr <;>
        cases h4 : (options.get "filters").bind Json.asArr <;>
          rfl

theorem scrubOptions_defaultPath (options : Json) :
    ((scrubOptions options).get "defaultPath").bind Json.asStr
      = (options.get "defaultPath").bind Json.asStr := by
  unfold scrubOptions
  cases h1 : (options.get "title").bind Json.asStr <;>
    cases h2 : (options.get "defaultPath").bind Json.asStr <;>
      cases h3 : (options.get "properties").bind Json.asArr <;>
        cases h4 : (options.get "filters").bind Json.asArr <;>
          rfl

theorem scrubOptions_properties (options : Json) :
    ((scrubOptions options).get "properties").bind Json.asArr
      = ((options.get "properties").bind Json.asArr).map
          (fun props => props.filter (fun v => (Json.asStr v).isSome)) := by
  unfold scrubOptions
  cases h1 : (options.get "title").bind Json.asStr <;>
    cases h2 : (options.get "defaultPath").bind Json.asStr <;>
      cases h3 : (options.get "properties").bind Json.asArr <;>
        cases h4 : (options.get "filters").bind Json.asArr <;>
          rfl

theorem scrubOptions_filters (options : Json) :
    ((scrubOptions options).get "filters").bind Json.asArr
      = ((options.get "filters").bind Json.asArr).map
          (fun filters => filters.map scrubFilter) := by
  unfold scrubOptions
  cases h1 : (options.get "title").bind Json.asStr <;>
    cases h2 : (options.get "defaultPath").bind Json.asStr <;>
      cases h3 : (options.get "properties").bind Json.asArr <;>
        cases h4 : (options.get "filters").bind Json.asArr <;>
          rfl

theorem scrubFilter_name (filter : Json) :
    ((scrubFilter filter).get "name").bind Json.asStr
      = (filter.get "name").bind Json.asStr := by
  unfold scrubFilter
  cases h1 : (filter.get "name").bind Json.asStr <;>
    cases h2 : (filter.get "extensions").bind Json.asArr <;>
      rfl

theorem scrubFilter_extensions (filter : Json) :
    ((scrubFilter filter).get "extensions").bind Json.asArr
      = ((filter.get "extensions").bind Json.asArr).map
          (fun es => es.filter (fun e => (Json.asStr e).isSome)) := by
  unfold scrubFilter
  cases h1 : (filter.get "name").bind Json.asStr <;>
    cases h2 : (filter.get "extensions").bind Json.asArr <;>
      rfl

theorem filterMap_asStr_filter (es : List Json) :
    (es.filter (fun e => (Json.asStr e).isSome)).filterMap Json.asStr
      = es.filterMap Json.asStr := by
  induction es with
  | nil => rfl
  | cons e rest ih =>
    cases he : Json.asStr e <;>
      simp [List.filter_cons, List.filterMap_cons, he, ih]

theorem any_openDirectory_filter (props : List Json) :
    (props.filter (fun v => (Json.asStr v).isSome)).any
        (fun v => v.asStr == some "openDirectory")
      = props.any (fun v => v.asStr == some "openDirectory") := by
  induction props with
  | nil => rfl
  | cons v rest ih =>
    cases hv : Json.asStr v <;>
      simp [List.filter_cons, List.any_cons, hv, ih]

theorem filterStep_scrubFilter (b : FileDialogBuilder) (filter : Json) :
    filterStep b (scrubFilter filter) = filterStep b filter := by
  unfold filterStep
  rw [scrubFilter_name, scrubFilter_extensions]
  cases hn : (filter.get "name").bind Json.asStr with
  | none => rfl
  | some name =>
    cases he : (filter.get "extensions").bind Json.asArr with
    | none => rfl
    | some extensions =>
      simp only [Option.map]
      rw [filterMap_asStr_filter]

theorem addFilters_scrubOptions (b : FileDialogBuilder) (options : Json) :
    addFilters b (scrubOptions options) = addFilters b options := by
  unfold addFilters
  rw [scrubOptions_filters]
  cases hf : (options.get "filters").bind Json.asArr with
  | none => rfl
  | some filters =>
    simp only [Option.map]
    rw [List.foldl_map]
    have hstep : (fun (acc : FileDialogBuilder) (f : Json) => filterStep acc (scrubFilter f))
        = filterStep :=
      funext (fun acc => funext (fun f => filterStep_scrubFilter acc f))
    rw [hstep]

theorem directory_mode_scrubOptions (options : Json) :
    directory_mode (scrubOptions options) = directory_mode options := by
  unfold directory_mode
  rw [scrubOptions_properties]
  cases hp : (options.get "properties").bind Json.asArr with
  | none => rfl
  | some props =>
    simp only [Option.map]
    exact any_openDirectory_filter props

theorem openDialogBuilder_scrubOptions (options : Json) :
    openDialogBuilder (scrubOptions options) = openDialogBuilder options := by
  simp only [openDialogBuilder, scrubOptions_title, scrubOptions_defaultPath,
    addFilters_scrubOptions]

theorem saveDialogBuilder_scrubOptions (options : Json) :
    saveDialogBuilder (scrubOptions options) = saveDialogBuilder options := by
  simp only [saveDialogBuilder, scrubOptions_title, scrubOptions_defaultPath,
    addFilters_scrubOptions]

/-- C10: the two dialog commands are total over arbitrary options JSON
values, and treat every malformed field or element as if absent: every
options value configures and answers exactly like its scrubbed form
(recognized keys kept only when well typed, only string elements kept
in the properties and extensions arrays), and a filter entry whose
extensions carry no string element is skipped entirely. -/
theorem claim10_options_totality (options : Json) (delivered : DialogDelivery) :
    show_open_dialog (scrubOptions options) delivered = show_open_dialog options delivered
    ∧ openDialogBuilder (scrubOptions options) = openDialogBuilder options
    ∧ openDialogBranch (scrubOptions options) = openDialogBranch options
    ∧ saveDialogBuilder (scrubOptions options) = saveDialogBuilder options
    ∧ show_save_dialog (scrubOptions options) delivered = show_save_dialog options delivered
    ∧ (∀ (b : FileDialogBuilder) (filter : Json) (es : List Json),
        (filter.get "extensions").bind Json.asArr = some es →
        es.filterMap Json.asStr = [] → filterStep b filter = b) := by
  refine ⟨?_, openDialogBuilder_scrubOptions options, ?_,
    saveDialogBuilder_scrubOptions options, ?_, ?_⟩
  · rcases delivered with _ | (_ | q) <;> rfl
  · unfold openDialogBranch
    rw [directory_mode_scrubOptions]
  · rcases delivered with _ | (_ | q) <;> rfl
  · intro b filter es he hem
    unfold filterStep
    rw [he]
    cases hn : (filter.get "name").bind Json.asStr with
    | none => rfl
    | some name =>
      dsimp only
      rw [hem]
      rfl

theorem claim10_options_witness :
    filterStep {} (Json.obj [("name", Json.str "x"), ("extensions", Json.arr [Json.num 1])])
      = ({} : FileDialogBuilder) :=
  (claim10_options_totality (Json.obj []) none).2.2.2.2.2 {}
    (Json.obj [("name", Json.str "x"), ("extensions", Json.arr [Json.num 1])])
    [Json.num 1] rfl rfl

theorem beforeLastSlash_of_not_mem (ys : List Char) (h : '/' ∉ ys) :
    beforeLastSlash ys = none := by
  induction ys with
  | nil => rfl
  | cons c rest ih =>
    have hc : ¬ c = '/' := fun he => h (he ▸ List.mem_cons_self c rest)
    have hr : '/' ∉ rest := fun hm => h (List.mem_cons_of_mem c hm)
    simp [beforeLastSlash, ih hr, hc]

theorem beforeLastSlash_append (xs ys : List Char) (h : '/' ∉ ys) :
    beforeLastSlash (xs ++ '/' :: ys) = some xs := by
  induction xs with
  | nil =>
    simp only [List.nil_append]
    simp [beforeLastSlash, beforeLastSlash_of_not_mem ys h]
  | cons x xs ih =>
    simp only [List.cons_append]
    simp [beforeLastSlash, ih]

theorem parentDir_eq_of_data (s : String) (xs ys : List Char) (hys : '/' ∉ ys)
    (hyne : ys ≠ []) (hd : s.data = xs ++ '/' :: ys) :
    parentDir s
      = some (if xs = [] ∧ s.data.head? = some '/' then "/" else (⟨xs⟩ : String)) := by
  have h0 : s ≠ "" := by
    intro he
    rw [he] at hd
    have h2 : ([] : List Char) = xs ++ '/' :: ys := hd
    simp at h2
  have h1 : s ≠ "/" := by
    intro he
    rw [he] at hd
    have h2 : (['/'] : List Char) = xs ++ '/' :: ys := hd
    have hy : 0 < ys.length := List.length_pos.mpr hyne
    have hl := congrArg List.length h2
    simp [List.length_append] at hl
    omega
  unfold parentDir
  rw [if_neg h0, if_neg h1, hd, beforeLastSlash_append xs ys hys]
  by_cases hc : xs = [] ∧ (xs ++ '/' :: ys).head? = some '/'
  · simp only [if_pos hc]
  · simp only [if_neg hc]

theorem parentDir_joinPath_settings (dir : String) :
    parentDir (joinPath dir "settings.json")
      = some (if (joinPath dir "settings.json").data.head? = some '/'
                ∧ (if dir.data.getLast? = some '/' then dir.data.dropLast else dir.data) = []
              then "/"
              else ⟨if dir.data.getLast? = some '/' then dir.data.dropLast else dir.data⟩) := by
  have hys : '/' ∉ "settings.json".data := by decide
  have hyne : "settings.json".data ≠ [] := by decide
  by_cases h : dir.data.getLast? = some '/'
  · obtain ⟨xs, hxs⟩ := List.getLast?_eq_some_iff.mp h
    have hdata : (joinPath dir "settings.json").data = xs ++ '/' :: "settings.json".data := by
      unfold joinPath
      rw [if_pos h, String.data_append, hxs, List.append_assoc, List.singleton_append]
    rw [parentDir_eq_of_data _ xs "settings.json".data hys hyne hdata]
    have hdrop : dir.data.dropLast = xs := by
      rw [hxs]
      exact List.dropLast_concat
    rw [if_pos h, hdrop]
    by_cases hx : xs = []
    · simp [hx]
    · simp [hx]
  · have hdata : (joinPath dir "settings.json").data = dir.data ++ '/' :: "settings.json".data := by
      unfold joinPath
      rw [if_neg h, String.data_append, String.data_append]
      have hslash : ("/" : String).data = ['/'] := rfl
      rw [hslash, List.append_assoc, List.singleton_append]
    rw [parentDir_eq_of_data _ dir.data "settings.json".data hys hyne hdata]
    rw [if_neg h]
    by_cases hx : dir.data = []
    · simp [hx]
    · simp [hx]

theorem dirExists_after_chain (files : List (String × String)) (den l : List String)
    (parent : String) (n : Nat) :
    dirExists { files := files, dirs := dirChain (n + 1) parent ++ l, dirDenied := den }
      parent = true := by
  unfold dirExists
  split
  · rfl
  · split
    · rfl
    · show strElem parent
        ((parent :: (match parentDir parent with
          | some q => dirChain n q
          | none => [])) ++ l) = true
      exact strElem_head_append parent _ l

theorem fsWrite_error_msg (fs : FS) (p c e : String) (h : fsWrite fs p c = .error e) :
    e = enoentMsg := by
  unfold fsWrite at h
  split at h
  · split at h
    · exact Except.noConfusion h
    · injection h with h2
      exact h2.symm
  · injection h with h2
    exact h2.symm

theorem fsCreateDirAll_benign (fs : FS) (parent : String) (hden : fs.dirDenied = []) :
    fsCreateDirAll fs parent
      = .ok { fs with dirs := dirChain (parent.length + 1) parent ++ fs.dirs } := by
  unfold fsCreateDirAll
  rw [hden]
  rfl

theorem save_settings_benign (dir : String) (fs : FS) (json : String) (parent : String)
    (hp : parentDir (joinPath dir "settings.json") = some parent)
    (hden : fs.dirDenied = []) :
    save_settings (some dir) fs json
      = .ok ({ files := (joinPath dir "settings.json", json) :: fs.files,
               dirs := dirChain (parent.length + 1) parent ++ fs.dirs,
               dirDenied := fs.dirDenied },
             { success := true, data := none, error := none }) := by
  have hde : dirExists
      { files := fs.files, dirs := dirChain (parent.length + 1) parent ++ fs.dirs,
        dirDenied := fs.dirDenied } parent = true :=
    dirExists_after_chain fs.files fs.dirDenied fs.dirs parent parent.length
  have hw : fsWrite
      { files := fs.files, dirs := dirChain (parent.length + 1) parent ++ fs.dirs,
        dirDenied := fs.dirDenied }
      (joinPath dir "settings.json") json
      = .ok { files := (joinPath dir "settings.json", json) :: fs.files,
              dirs := dirChain (parent.length + 1) parent ++ fs.dirs,
              dirDenied := fs.dirDenied } := by
    unfold fsWrite
    rw [hp]
    dsimp only
    rw [if_pos hde]
  unfold save_settings get_settings_path
  dsimp only
  rw [hp]
  dsimp only
  rw [fsCreateDirAll_benign fs parent hden]
  dsimp only
  rw [hw]

/-- C5: for every JSON text, `save_settings` followed by
`load_settings` yields success with byte-for-byte the same text, even
when the settings directory did not previously exist (the store
creates it best-effort first); `save_settings` itself never aborts with
an error value, and the only error its envelope can surface is the
write failure, never the swallowed directory-creation failure. -/
theorem claim5_settings_roundtrip (dir : String) (fs : FS) (json : String) :
    (∀ e, save_settings (some dir) fs json ≠ .error e)
    ∧ (fs.dirDenied = [] → ∀ fs2 r, save_settings (some dir) fs json = .ok (fs2, r) →
        r = { success := true, data := none, error := none }
        ∧ load_settings (some dir) fs2
            = .ok { success := true, data := some json, error := none })
    ∧ (∀ fs2 r, save_settings (some dir) fs json = .ok (fs2, r) →
        r.error = none ∨ r.error = some enoentMsg) := by
  refine ⟨?_, ?_, ?_⟩
  · intro e h
    unfold save_settings get_settings_path at h
    dsimp only at h
    exact Except.noConfusion h
  · intro hden fs2 r h
    obtain ⟨parent, hp⟩ : ∃ parent, parentDir (joinPath dir "settings.json") = some parent :=
      ⟨_, parentDir_joinPath_settings dir⟩
    rw [save_settings_benign dir fs json parent hp hden] at h
    injection h with h2
    rw [Prod.mk.injEq] at h2
    refine ⟨h2.2.symm, ?_⟩
    rw [← h2.1]
    unfold load_settings get_settings_path fsReadToString
    dsimp only
    rw [assocLookup_self]
  · intro fs2 r h
    unfold save_settings get_settings_path at h
    dsimp only at h
    injection h with h2
    split at h2
    · rw [Prod.mk.injEq] at h2
      rw [← h2.2]
      exact Or.inl rfl
    · next e hw =>
      rw [Prod.mk.injEq] at h2
      rw [← h2.2]
      exact Or.inr (by rw [fsWrite_error_msg _ _ _ _ hw])

theorem claim5_settings_witness :
    ({ success := true, data := none, error := none } : FileResult)
        = { success := true, data := none, error := none }
    ∧ load_settings (some "/data")
        { files := [("/data/settings.json", "42")], dirs := ["/data", "/"], dirDenied := [] }
        = .ok { success := true, data := some "42", error := none } :=
  (claim5_settings_roundtrip "/data" fsEmpty "42").2.1 rfl
    { files := [("/data/settings.json", "42")], dirs := ["/data", "/"], dirDenied := [] }
    { success := true, data := none, error := none } (by rfl)

/-- C2: the startup auto-loader, given a present main window, emits
exactly one `auto-load-project` notification carrying exactly the
stored path after the fixed 1500 ms delay when the settings load
succeeds, the parsed document carries `lastOpenedProject`, and that
path exists on disk at check time; and it emits nothing (silently, with
no error surfaced) when the load fails, the document does not parse,
`lastOpenedProject` is absent, or the path does not exist. -/
theorem claim2_autoload (dir : String) (fs : FS) (parse : String → Option Settings)
    (st : Settings) (data project : String) :
    (load_settings (some dir) fs
        = .ok { success := true, data := some data, error := none } →
      parse data = some st → st.last_opened_project = some project →
      fsPathExists fs project = true →
      autoLoadTask (some dir) fs parse true = .ok [(1500, "auto-load-project", project)])
    ∧ (∀ r, load_settings (some dir) fs = .ok r → r.success = false →
      autoLoadTask (some dir) fs parse true = .ok [])
    ∧ (load_settings (some dir) fs
        = .ok { success := true, data := some data, error := none } →
      parse data = none → autoLoadTask (some dir) fs parse true = .ok [])
    ∧ (load_settings (some dir) fs
        = .ok { success := true, data := some data, error := none } →
      parse data = some st → st.last_opened_project = none →
      autoLoadTask (some dir) fs parse true = .ok [])
    ∧ (load_settings (some dir) fs
        = .ok { success := true, data := some data, error := none } →
      parse data = some st → st.last_opened_project = some project →
      fsPathExists fs project = false →
      autoLoadTask (some dir) fs parse true = .ok []) := by
  have hmap : ∀ r, load_settings (some dir) fs = .ok r →
      autoLoadTask (some dir) fs parse true
        = .ok (if r.success then
            match r.data with
            | some d =>
              match parse d with
              | some settings =>
                match settings.last_opened_project with
                | some last_project =>
                  if fsPathExists fs last_project then
                    if true then [(1500, "auto-load-project", last_project)] else []
                  else []
                | none => []
              | none => []
            | none => []
          else []) := by
    intro r h
    unfold autoLoadTask
    rw [h]
    rfl
  refine ⟨?_, ?_, ?_, ?_, ?_⟩
  · intro hload hparse hlast hexists
    rw [hmap _ hload]
    simp [hparse, hlast, hexists]
  · intro r hload hsucc
    rw [hmap r hload]
    simp [hsucc]
  · intro hload hparse
    rw [hmap _ hload]
    simp [hparse]
  · intro hload hparse hlast
    rw [hmap _ hload]
    simp [hparse, hlast]
  · intro hload hparse hlast hexists
    rw [hmap _ hload]
    simp [hparse, hlast, hexists]

theorem claim2_autoload_witness :
    autoLoadTask (some "/data") fsAuto parseAuto true
      = .ok [(1500, "auto-load-project", "/tmp/exists.proj")] :=
  (claim2_autoload "/data" fsAuto parseAuto
      { recent_files := none, last_opened_project := some "/tmp/exists.proj" }
      "S" "/tmp/exists.proj").1 rfl rfl rfl (by decide)

theorem claim6_envelope_witness :
    (({ success := false, data := none, error := some enoentMsg } : FileResult).success = true
        ↔ ({ success := false, data := none, error := some enoentMsg } : FileResult).error = none)
    ∧ (({ success := false, data := none, error := some enoentMsg } : FileResult).data.isSome
          = true
        ↔ ({ success := false, data := none, error := some enoentMsg } : FileResult).success
          = true) :=
  (claim6_envelope_invariant fsEmpty "/p" "c" "/data" "42").2.2.2.2.2.2.1
    { success := false, data := none, error := some enoentMsg } rfl

end LostEditor
